import Mathlib

/-
Verification of the Google Docs MCP server adapter layer (src/main.py).

The embedding models:
  * JSON-like values exchanged with the remote API (`JVal`),
  * the authenticated request executor `make_api_request`, parametrised by
    the transport outcome of the single HTTP call it performs,
  * the nine tool adapters, each a total function from an environment
    (optional access token), a network oracle (mapping each built request
    descriptor to a transport outcome) and the tool arguments, to a
    result envelope together with the number of executor invocations.

Python-level dynamic behaviour (dict `.get`, `in`, subscripting, `len`,
truthiness, `str`) is modelled by explicit partial operations returning
`Except String`, mirroring the exceptions the interpreter would raise,
which the adapters catch into their error envelopes.
-/

namespace GDocs

/-- JSON-like values: the structured data exchanged with the remote API. -/
inductive JVal where
  | null
  | bool (b : Bool)
  | num (n : Int)
  | str (s : String)
  | arr (xs : List JVal)
  | obj (fs : List (String × JVal))

/-- A single apostrophe character, used in several message strings. -/
def quoteCh : String := String.singleton (Char.ofNat 39)

/-- Python type name of a JSON value (for AttributeError-style messages). -/
def JVal.pyType : JVal → String
  | .null => "NoneType"
  | .bool _ => "bool"
  | .num _ => "int"
  | .str _ => "str"
  | .arr _ => "list"
  | .obj _ => "dict"

/-- First-match lookup in an association list (Python dict lookup). -/
def assocLookup : List (String × JVal) → String → Option JVal
  | [], _ => none
  | (k2, v) :: rest, k => if k2 = k then some v else assocLookup rest k

mutual
/-- Python `repr` of a JSON value (strings quoted). -/
def pyRepr : JVal → String
  | .null => "None"
  | .bool b => cond b "True" "False"
  | .num n => toString n
  | .str s => quoteCh ++ s ++ quoteCh
  | .arr xs => "[" ++ pyReprList xs ++ "]"
  | .obj fs => "\x7b" ++ pyReprObj fs ++ "\x7d"

/-- Comma-joined `repr`s of list elements. -/
def pyReprList : List JVal → String
  | [] => ""
  | [x] => pyRepr x
  | x :: y :: rest => pyRepr x ++ ", " ++ pyReprList (y :: rest)

/-- Comma-joined `repr`s of dict entries. -/
def pyReprObj : List (String × JVal) → String
  | [] => ""
  | [(k, v)] => quoteCh ++ k ++ quoteCh ++ ": " ++ pyRepr v
  | (k, v) :: e :: rest =>
      quoteCh ++ k ++ quoteCh ++ ": " ++ pyRepr v ++ ", " ++ pyReprObj (e :: rest)
end

/-- Python `str` of a JSON value (top-level strings unquoted, as in f-strings). -/
def pyStr : JVal → String
  | .str s => s
  | v => pyRepr v

/-- Python truthiness of a JSON value. -/
def pyTruthy : JVal → Bool
  | .null => false
  | .bool b => b
  | .num n => n != 0
  | .str s => s != ""
  | .arr xs => !xs.isEmpty
  | .obj fs => !fs.isEmpty

/-- AttributeError message text. -/
def attrErr (ty attr : String) : String :=
  quoteCh ++ ty ++ quoteCh ++ " object has no attribute " ++ quoteCh ++ attr ++ quoteCh

/-- Python `len` on a JSON value; TypeError on values with no length. -/
def pyLen : JVal → Except String Nat
  | .str s => .ok s.length
  | .arr xs => .ok xs.length
  | .obj fs => .ok fs.length
  | v => .error ("object of type " ++ quoteCh ++ v.pyType ++ quoteCh ++ " has no len()")

/-- Whether the second character list is an initial segment of the first
(Python `str.startswith`, on decoded characters). -/
def chStarts : List Char → List Char → Bool
  | _, [] => true
  | [], _ :: _ => false
  | c :: cs, d :: ds => c == d && chStarts cs ds

/-- Whether the needle occurs contiguously in the haystack
(Python substring membership, on decoded characters). -/
def chContains (needle : List Char) : List Char → Bool
  | [] => chStarts [] needle
  | c :: rest => chStarts (c :: rest) needle || chContains needle rest

/-- Python membership test `k in v` for a string key. -/
def pyContains : String → JVal → Except String Bool
  | k, .obj fs => .ok (assocLookup fs k).isSome
  | k, .arr xs => .ok (xs.any fun x => match x with | .str s => s == k | _ => false)
  | k, .str s => .ok (chContains k.data s.data)
  | _, v => .error ("argument of type " ++ quoteCh ++ v.pyType ++ quoteCh ++ " is not iterable")

/-- Case analysis on an `Option`, used to keep adapter bodies rewrite-friendly. -/
def optStep {α β : Type} : Option α → β → (α → β) → β
  | none, x, _ => x
  | some a, _, f => f a

/-- Case analysis on an `Except String`, used to keep adapter bodies rewrite-friendly. -/
def step {α β : Type} : Except String α → (String → β) → (α → β) → β
  | .error e, f, _ => f e
  | .ok a, _, g => g a

/-- Case analysis on a `Bool`, used to keep adapter bodies rewrite-friendly. -/
def bstep {β : Type} : Bool → β → β → β
  | true, x, _ => x
  | false, _, y => y

/-- Python subscript `v[k]` with a string key. -/
def pySubscript : JVal → String → Except String JVal
  | .obj fs, k =>
      optStep (assocLookup fs k)
        (.error ("KeyError: " ++ quoteCh ++ k ++ quoteCh)) Except.ok
  | .arr _, _ => .error "list indices must be integers or slices, not str"
  | .str _, _ => .error "string indices must be integers"
  | v, _ => .error (quoteCh ++ v.pyType ++ quoteCh ++ " object is not subscriptable")

/-- Python subscript `v[0]`. -/
def pyIndexZero : JVal → Except String JVal
  | .arr (x :: _) => .ok x
  | .arr [] => .error "list index out of range"
  | .str s => optStep s.data.head? (.error "string index out of range")
      (fun c => .ok (.str (String.singleton c)))
  | .obj _ => .error "KeyError: 0"
  | v => .error (quoteCh ++ v.pyType ++ quoteCh ++ " object is not subscriptable")

/-- Python dict-level `v.get(k, dflt)`; AttributeError on non-dicts. -/
def pyDictGetD : JVal → String → JVal → Except String JVal
  | .obj fs, k, dflt => .ok ((assocLookup fs k).getD dflt)
  | v, _, _ => .error (attrErr v.pyType "get")

/-- Result of one executor call: decoded JSON data or a raw byte payload. -/
inductive ApiData where
  | jsonData (v : JVal)
  | bytesData (b : List Nat)

/-- Whether an executor payload is raw byte data. -/
def ApiData.isBytes : ApiData → Bool
  | .bytesData _ => true
  | _ => false

/-- Python type name of an executor payload. -/
def ApiData.pyType : ApiData → String
  | .jsonData v => v.pyType
  | .bytesData _ => "bytes"

/-- `result.get(k, dflt)` on an executor payload; AttributeError on non-dicts. -/
def dictGetD : ApiData → String → JVal → Except String JVal
  | .jsonData (.obj fs), k, dflt => .ok ((assocLookup fs k).getD dflt)
  | d, _, _ => .error (attrErr d.pyType "get")

/-- `result.get(k)` on an executor payload (default `None`). -/
def dictGetN (d : ApiData) (k : String) : Except String JVal :=
  dictGetD d k JVal.null

/-- A 2xx-or-not HTTP response as seen by the executor: status, content-type
header, raw body bytes, body text, and the result of JSON-decoding the body
(`Except.error` when the body is not valid JSON). -/
structure HttpResponse where
  status : Nat
  contentType : String
  content : List Nat
  bodyText : String
  jsonBody : Except String JVal

/-- Outcome of the single HTTP call the executor performs: either a response
arrived, or a transport-level fault occurred (DNS, connection, timeout). -/
inductive Transport where
  | resp (r : HttpResponse)
  | fault (desc : String)

/-- Request descriptor built by a tool adapter: method, URL, query parameters
and JSON body (`main.py` passes these to the executor's transport call). -/
structure Request where
  method : String
  url : String
  params : List (String × JVal) := []
  jsonBody : JVal := JVal.null

/-- The network oracle: what transport outcome each issued request meets. -/
def NetOracle : Type := Request → Transport

/-- Base URL of the document-content API (`DOCS_API_BASE` in main.py). -/
def DOCS_API_BASE : String := "https://docs.googleapis.com/v1"

/-- Base URL of the file-storage API (`DRIVE_API_BASE` in main.py). -/
def DRIVE_API_BASE : String := "https://www.googleapis.com/drive/v3"

/-- The configuration-error message raised when the token is missing
(raised by `get_access_token` in main.py). -/
def missingTokenMsg : String :=
  "Missing GOOGLE_ACCESS_TOKEN environment variable. Please set it in your .env file or environment."

/-- `get_access_token` from main.py: reads the environment variable and raises
`ValueError` when it is unset or falsy (the empty string). -/
def get_access_token : Option String → Except String String
  | none => .error missingTokenMsg
  | some t => if t = "" then .error missingTokenMsg else .ok t

/-- `httpx` success predicate used by `raise_for_status`: 2xx statuses. -/
def is2xx (status : Nat) : Bool :=
  decide (200 ≤ status) && decide (status < 300)

/-- `make_api_request` from main.py: resolve the credential, perform the call,
and either return bytes (content-type starting with `application/`), decoded
JSON, or raise: `Google API error <status>: <body>` on non-2xx,
`Request failed: <cause>` on transport faults and JSON-decode failures. -/
def make_api_request (env : Option String) (t : Transport) : Except String ApiData :=
  step (get_access_token env) Except.error fun _ =>
    match t with
    | .fault d => .error ("Request failed: " ++ d)
    | .resp r =>
        bstep (is2xx r.status)
          (bstep (chStarts r.contentType.data "application/".data)
            (.ok (.bytesData r.content))
            (step r.jsonBody (fun d => .error ("Request failed: " ++ d))
              (fun v => .ok (.jsonData v))))
          (.error ("Google API error " ++ toString r.status ++ ": " ++ r.bodyText))

/-- A result envelope: the structured mapping a tool returns to the agent. -/
abbrev Envelope := List (String × JVal)

/-- Field lookup in an envelope. -/
def lookupField : Envelope → String → Option JVal
  | [], _ => none
  | (k2, v) :: rest, k => if k2 = k then some v else lookupField rest k

/-- Whether an envelope contains a field. -/
def hasField (e : Envelope) (k : String) : Bool :=
  (lookupField e k).isSome

/-- The two-variant envelope convention: a `message` field is present, and
exactly one of the primary success field and the `error` field is present. -/
def envOk (e : Envelope) (primary : String) : Bool :=
  hasField e "message" && (hasField e primary != hasField e "error")

/-- A string contains another as a contiguous substring. -/
def containsSub (hay needle : String) : Prop :=
  ∃ a b, hay = a ++ (needle ++ b)

/-- Result of one tool invocation: the returned envelope, together with the
number of executor (`make_api_request`) invocations the tool performed. -/
structure ToolResult where
  envelope : Envelope
  calls : Nat

/-- The MIME-type filter string in `list_documents`' query. -/
def mimeFilter : String :=
  "mimeType=" ++ quoteCh ++ "application/vnd.google-apps.document" ++ quoteCh

/-- The field mask in `list_documents`' query. -/
def listFields : String :=
  "files(id,name,createdTime,modifiedTime,webViewLink,thumbnailLink,owners)"

/-- The page size `list_documents` sends: `min(max_results, 1000)`. -/
def list_documents_pageSize (max_results : Int) : Int :=
  min max_results 1000

/-- The query parameters `list_documents` sends. -/
def list_documents_params (max_results : Int) : List (String × JVal) :=
  [("q", .str mimeFilter),
   ("pageSize", .num (list_documents_pageSize max_results)),
   ("fields", .str listFields)]

/-- The request `list_documents` issues. -/
def list_documents_request (max_results : Int) : Request :=
  { method := "GET", url := DRIVE_API_BASE ++ "/files",
    params := list_documents_params max_results }

/-- The request `get_document` issues. -/
def get_document_request (document_id : String) : Request :=
  { method := "GET", url := DOCS_API_BASE ++ "/documents/" ++ document_id }

/-- The creation request `create_document` issues first. -/
def create_document_request (title : String) : Request :=
  { method := "POST", url := DOCS_API_BASE ++ "/documents",
    jsonBody := .obj [("title", .str title)] }

/-- The metadata request `create_document` issues second (the created id is
interpolated into the URL with Python `str`). -/
def create_meta_request (doc_id : JVal) : Request :=
  { method := "GET", url := DRIVE_API_BASE ++ "/files/" ++ pyStr doc_id,
    params := [("fields", .str "webViewLink")] }

/-- The batch-update request `insert_text` issues. -/
def insert_text_request (document_id text : String) (index : Int) : Request :=
  { method := "POST",
    url := DOCS_API_BASE ++ "/documents/" ++ document_id ++ ":batchUpdate",
    jsonBody := .obj [("requests", .arr [.obj [("insertText", .obj
      [("location", .obj [("index", .num index)]), ("text", .str text)])]])] }

/-- The batch-update request `replace_text` issues (case-insensitive match). -/
def replace_text_request (document_id old_text new_text : String) : Request :=
  { method := "POST",
    url := DOCS_API_BASE ++ "/documents/" ++ document_id ++ ":batchUpdate",
    jsonBody := .obj [("requests", .arr [.obj [("replaceAllText", .obj
      [("containsText", .obj [("text", .str old_text), ("matchCase", .bool false)]),
       ("replaceText", .str new_text)])]])] }

/-- The style entries `format_text` collects from its optional flags,
in source order: bold, italic, underline. -/
def styleEntries (bold italic underline : Option Bool) : List (String × Bool) :=
  (match bold with | some b => [("bold", b)] | none => []) ++
  (match italic with | some b => [("italic", b)] | none => []) ++
  (match underline with | some b => [("underline", b)] | none => [])

/-- Python `str` of a boolean. -/
def pyBoolStr (b : Bool) : String :=
  cond b "True" "False"

/-- The `formatting_applied` strings `format_text` reports. -/
def formattingStrs (entries : List (String × Bool)) : List String :=
  entries.map fun p => p.1 ++ "=" ++ pyBoolStr p.2

/-- The batch-update request `format_text` issues, with the field mask built
by joining the supplied style keys with commas. -/
def format_text_request (document_id : String) (start_index end_index : Int)
    (entries : List (String × Bool)) : Request :=
  { method := "POST",
    url := DOCS_API_BASE ++ "/documents/" ++ document_id ++ ":batchUpdate",
    jsonBody := .obj [("requests", .arr [.obj [("updateTextStyle", .obj
      [("range", .obj [("startIndex", .num start_index), ("endIndex", .num end_index)]),
       ("textStyle", .obj (entries.map fun p => (p.1, JVal.bool p.2))),
       ("fields", .str (String.intercalate "," (entries.map Prod.fst)))])]])] }

/-- The batch-update request `insert_image` issues. -/
def insert_image_request (document_id image_url : String) (index : Int) : Request :=
  { method := "POST",
    url := DOCS_API_BASE ++ "/documents/" ++ document_id ++ ":batchUpdate",
    jsonBody := .obj [("requests", .arr [.obj [("insertInlineImage", .obj
      [("location", .obj [("index", .num index)]), ("uri", .str image_url)])]])] }

/-- The fixed export-format table of `export_document`, in source order. -/
def mime_types : List (String × String) :=
  [("pdf", "application/pdf"),
   ("docx", "application/vnd.openxmlformats-officedocument.wordprocessingml.document"),
   ("odt", "application/vnd.oasis.opendocument.text"),
   ("rtf", "application/rtf"),
   ("txt", "text/plain"),
   ("html", "text/html"),
   ("epub", "application/epub+zip")]

/-- First-match lookup in a string-valued table. -/
def lookupStr : List (String × String) → String → Option String
  | [], _ => none
  | (k2, v) :: rest, k => if k2 = k then some v else lookupStr rest k

/-- The export request `export_document` issues. -/
def export_request (document_id mime : String) : Request :=
  { method := "GET",
    url := DRIVE_API_BASE ++ "/files/" ++ document_id ++ "/export",
    params := [("mimeType", .str mime)] }

/-- The request `delete_document` issues. -/
def delete_document_request (document_id : String) : Request :=
  { method := "DELETE", url := DRIVE_API_BASE ++ "/files/" ++ document_id }

/-- `content_length` computation in `export_document`:
`len(content) if isinstance(content, bytes) else 0`. -/
def lenOrZero : ApiData → Nat
  | .bytesData b => b.length
  | .jsonData _ => 0

/-- Error envelope of `list_documents`. -/
def listErr (e : String) : Envelope :=
  [("error", .str e), ("message", .str "Failed to list documents")]

/-- Success envelope of `list_documents`. -/
def listOk (files : JVal) (n : Nat) : Envelope :=
  [("files", files), ("count", .num n),
   ("message", .str ("Successfully listed " ++ toString n ++ " documents"))]

/-- Error envelope of `get_document`. -/
def getDocErr (document_id e : String) : Envelope :=
  [("error", .str e), ("document_id", .str document_id),
   ("message", .str ("Failed to retrieve document " ++ document_id))]

/-- Success envelope of `get_document`. -/
def getDocOk (docId title body : JVal) : Envelope :=
  [("documentId", docId), ("title", title), ("body", body),
   ("message", .str ("Successfully retrieved document: " ++ pyStr title))]

/-- Error envelope of `create_document`. -/
def createErr (title e : String) : Envelope :=
  [("error", .str e), ("title", .str title),
   ("message", .str ("Failed to create document " ++ quoteCh ++ title ++ quoteCh))]

/-- Success envelope of `create_document`. -/
def createOk (doc_id rtitle link : JVal) (title : String) : Envelope :=
  [("documentId", doc_id), ("title", rtitle), ("webViewLink", link),
   ("message", .str ("Successfully created document: " ++ title))]

/-- Error envelope of `insert_text`. -/
def insertTextErr (document_id e : String) : Envelope :=
  [("error", .str e), ("document_id", .str document_id),
   ("message", .str ("Failed to insert text into document " ++ document_id))]

/-- Success envelope of `insert_text`. -/
def insertTextOk (document_id : String) (index : Int) (replies : JVal) : Envelope :=
  [("documentId", .str document_id),
   ("message", .str ("Successfully inserted text at position " ++ toString index)),
   ("replies", replies)]

/-- Error envelope of `replace_text`. -/
def replaceErr (document_id e : String) : Envelope :=
  [("error", .str e), ("document_id", .str document_id),
   ("message", .str ("Failed to replace text in document " ++ document_id))]

/-- Success envelope of `replace_text`. -/
def replaceOk (document_id old_text new_text : String) (occ : JVal) : Envelope :=
  [("documentId", .str document_id),
   ("message", .str ("Successfully replaced " ++ pyStr occ ++ " occurrence(s) of "
     ++ quoteCh ++ old_text ++ quoteCh ++ " with " ++ quoteCh ++ new_text ++ quoteCh)),
   ("occurrences_changed", occ)]

/-- Local-validation error envelope of `format_text` (no option supplied). -/
def formatLocalErr (document_id : String) : Envelope :=
  [("error", .str "No formatting options provided"),
   ("document_id", .str document_id),
   ("message", .str "At least one formatting option (bold, italic, underline) must be specified")]

/-- Caught-failure error envelope of `format_text`. -/
def formatErr (document_id e : String) : Envelope :=
  [("error", .str e), ("document_id", .str document_id),
   ("message", .str ("Failed to format text in document " ++ document_id))]

/-- Success envelope of `format_text`. -/
def formatOk (document_id : String) (start_index end_index : Int)
    (entries : List (String × Bool)) : Envelope :=
  [("documentId", .str document_id),
   ("message", .str ("Successfully formatted text from index "
     ++ toString start_index ++ " to " ++ toString end_index)),
   ("formatting_applied", .arr ((formattingStrs entries).map JVal.str))]

/-- Error envelope of `insert_image`. -/
def insertImageErr (document_id e : String) : Envelope :=
  [("error", .str e), ("document_id", .str document_id),
   ("message", .str ("Failed to insert image into document " ++ document_id))]

/-- Success envelope of `insert_image`. -/
def insertImageOk (document_id image_url : String) (index : Int) : Envelope :=
  [("documentId", .str document_id),
   ("message", .str ("Successfully inserted image at position " ++ toString index)),
   ("image_url", .str image_url)]

/-- Local-validation error envelope of `export_document` (unsupported format),
listing the supported formats. -/
def exportLocalErr (export_format : String) : Envelope :=
  [("error", .str ("Unsupported export format: " ++ export_format)),
   ("supported_formats", .arr (mime_types.map fun p => JVal.str p.1)),
   ("message", .str ("Format " ++ quoteCh ++ export_format ++ quoteCh ++ " is not supported"))]

/-- Caught-failure error envelope of `export_document`. -/
def exportErr (document_id e : String) : Envelope :=
  [("error", .str e), ("document_id", .str document_id),
   ("message", .str ("Failed to export document " ++ document_id))]

/-- Success envelope of `export_document`: only the byte length of the export
payload is surfaced, never the payload itself. -/
def exportOk (document_id export_format : String) (n : Nat) : Envelope :=
  [("documentId", .str document_id), ("format", .str export_format),
   ("content_length", .num n),
   ("message", .str ("Successfully exported document as " ++ export_format
     ++ " (" ++ toString n ++ " bytes)")),
   ("download_info", .str "Export completed. Content available via Google Drive API.")]

/-- Error envelope of `delete_document`. -/
def deleteErr (document_id e : String) : Envelope :=
  [("error", .str e), ("document_id", .str document_id),
   ("message", .str ("Failed to delete document " ++ document_id))]

/-- Success envelope of `delete_document`. -/
def deleteOk (document_id : String) : Envelope :=
  [("documentId", .str document_id),
   ("message", .str ("Successfully deleted document " ++ document_id))]

/-- `list_documents` from main.py. -/
def list_documents (env : Option String) (net : NetOracle) (max_results : Int) : ToolResult :=
  step (make_api_request env (net (list_documents_request max_results)))
    (fun e => ⟨listErr e, 1⟩)
    (fun result =>
      step (dictGetD result "files" (.arr []))
        (fun e => ⟨listErr e, 1⟩)
        (fun files =>
          step (pyLen files)
            (fun e => ⟨listErr e, 1⟩)
            (fun n => ⟨listOk files n, 1⟩)))

/-- `get_document` from main.py. -/
def get_document (env : Option String) (net : NetOracle) (document_id : String) : ToolResult :=
  step (make_api_request env (net (get_document_request document_id)))
    (fun e => ⟨getDocErr document_id e, 1⟩)
    (fun result =>
      step (dictGetN result "documentId")
        (fun e => ⟨getDocErr document_id e, 1⟩)
        (fun docId =>
          step (dictGetN result "title")
            (fun e => ⟨getDocErr document_id e, 1⟩)
            (fun title =>
              step (dictGetN result "body")
                (fun e => ⟨getDocErr document_id e, 1⟩)
                (fun body => ⟨getDocOk docId title body, 1⟩))))

/-- `create_document` from main.py: create, then fetch the view link; a
failure anywhere (including after the creation call succeeded) is caught
into the error envelope. -/
def create_document (env : Option String) (net : NetOracle) (title : String) : ToolResult :=
  step (make_api_request env (net (create_document_request title)))
    (fun e => ⟨createErr title e, 1⟩)
    (fun result =>
      step (dictGetN result "documentId")
        (fun e => ⟨createErr title e, 1⟩)
        (fun doc_id =>
          step (make_api_request env (net (create_meta_request doc_id)))
            (fun e => ⟨createErr title e, 2⟩)
            (fun drive_info =>
              step (dictGetN result "title")
                (fun e => ⟨createErr title e, 2⟩)
                (fun rtitle =>
                  step (dictGetN drive_info "webViewLink")
                    (fun e => ⟨createErr title e, 2⟩)
                    (fun link => ⟨createOk doc_id rtitle link title, 2⟩)))))

/-- `insert_text` from main.py. -/
def insert_text (env : Option String) (net : NetOracle)
    (document_id text : String) (index : Int) : ToolResult :=
  step (make_api_request env (net (insert_text_request document_id text index)))
    (fun e => ⟨insertTextErr document_id e, 1⟩)
    (fun result =>
      step (dictGetD result "replies" (.arr []))
        (fun e => ⟨insertTextErr document_id e, 1⟩)
        (fun replies => ⟨insertTextOk document_id index replies, 1⟩))

/-- The defensive occurrence-count extraction in `replace_text`:
`occurrences = 0` unless the first reply is present and carries
`replaceAllText.occurrencesChanged`. -/
def replace_occurrences (replies : JVal) : Except String JVal :=
  bstep (pyTruthy replies)
    (step (pyIndexZero replies) Except.error
      (fun first =>
        step (pyContains "replaceAllText" first) Except.error
          (fun c =>
            bstep c
              (step (pySubscript first "replaceAllText") Except.error
                (fun rat => pyDictGetD rat "occurrencesChanged" (.num 0)))
              (.ok (.num 0)))))
    (.ok (.num 0))

/-- `replace_text` from main.py. -/
def replace_text (env : Option String) (net : NetOracle)
    (document_id old_text new_text : String) : ToolResult :=
  step (make_api_request env (net (replace_text_request document_id old_text new_text)))
    (fun e => ⟨replaceErr document_id e, 1⟩)
    (fun result =>
      step (dictGetD result "replies" (.arr []))
        (fun e => ⟨replaceErr document_id e, 1⟩)
        (fun replies =>
          step (replace_occurrences replies)
            (fun e => ⟨replaceErr document_id e, 1⟩)
            (fun occ => ⟨replaceOk document_id old_text new_text occ, 1⟩)))

/-- `format_text` from main.py: short-circuits locally (no executor call)
when no style flag is supplied. -/
def format_text (env : Option String) (net : NetOracle) (document_id : String)
    (start_index end_index : Int) (bold italic underline : Option Bool) : ToolResult :=
  bstep (styleEntries bold italic underline).isEmpty
    ⟨formatLocalErr document_id, 0⟩
    (step (make_api_request env (net (format_text_request document_id
        start_index end_index (styleEntries bold italic underline))))
      (fun e => ⟨formatErr document_id e, 1⟩)
      (fun _ => ⟨formatOk document_id start_index end_index
        (styleEntries bold italic underline), 1⟩))

/-- `insert_image` from main.py. -/
def insert_image (env : Option String) (net : NetOracle)
    (document_id image_url : String) (index : Int) : ToolResult :=
  step (make_api_request env (net (insert_image_request document_id image_url index)))
    (fun e => ⟨insertImageErr document_id e, 1⟩)
    (fun _ => ⟨insertImageOk document_id image_url index, 1⟩)

/-- `export_document` from main.py: short-circuits locally (no executor call)
on an unsupported format; otherwise surfaces only the payload's byte length. -/
def export_document (env : Option String) (net : NetOracle)
    (document_id export_format : String) : ToolResult :=
  optStep (lookupStr mime_types export_format)
    ⟨exportLocalErr export_format, 0⟩
    (fun mime =>
      step (make_api_request env (net (export_request document_id mime)))
        (fun e => ⟨exportErr document_id e, 1⟩)
        (fun content => ⟨exportOk document_id export_format (lenOrZero content), 1⟩))

/-- `delete_document` from main.py. -/
def delete_document (env : Option String) (net : NetOracle)
    (document_id : String) : ToolResult :=
  step (make_api_request env (net (delete_document_request document_id)))
    (fun e => ⟨deleteErr document_id e, 1⟩)
    (fun _ => ⟨deleteOk document_id, 1⟩)

/-- A network oracle on which every request meets a transport fault. -/
def netFault : NetOracle := fun _ => .fault "connection refused"

/-- A 2xx response carrying the empty JSON object. -/
def respEmptyJson : HttpResponse :=
  { status := 200, contentType := "", content := [], bodyText := "",
    jsonBody := .ok (.obj []) }

/-- A network oracle on which every request gets the empty JSON object. -/
def netEmptyObj : NetOracle := fun _ => .resp respEmptyJson

/-- A 404 response with a plain-text body. -/
def resp404 : HttpResponse :=
  { status := 404, contentType := "", content := [], bodyText := "File not found",
    jsonBody := .error "Expecting value" }

/-- A network oracle on which every request gets a 404 response. -/
def net404 : NetOracle := fun _ => .resp resp404

/-- A 2xx binary response whose byte payload is empty. -/
def respEmptyPdf : HttpResponse :=
  { status := 200, contentType := "application/pdf", content := [], bodyText := "",
    jsonBody := .error "Expecting value" }

/-- A network oracle on which every request gets an empty binary payload. -/
def netEmptyPdf : NetOracle := fun _ => .resp respEmptyPdf

/-- A 2xx creation reply carrying a document id and title. -/
def respCreated : HttpResponse :=
  { status := 200, contentType := "", content := [], bodyText := "",
    jsonBody := .ok (.obj [("documentId", .str "doc-123"), ("title", .str "Report")]) }

/-- A network oracle on which the POST creation call succeeds but the
follow-up GET metadata call meets a transport fault. -/
def netCreateThenFault : NetOracle := fun req =>
  if req.method = "POST" then .resp respCreated else .fault "link fetch failed"

/-- A 2xx binary response with a 4-byte payload. -/
def respPdf4 : HttpResponse :=
  { status := 200, contentType := "application/pdf", content := [37, 80, 68, 70],
    bodyText := "", jsonBody := .error "Expecting value" }

/-- A network oracle on which every request gets the 4-byte binary payload. -/
def netPdf4 : NetOracle := fun _ => .resp respPdf4

theorem get_access_token_ok (tok : String) (h : tok ≠ "") :
    get_access_token (some tok) = .ok tok := by
  simp [get_access_token, h]

theorem exec_fault (tok d : String) (h : tok ≠ "") :
    make_api_request (some tok) (.fault d) = .error ("Request failed: " ++ d) := by
  simp [make_api_request, get_access_token_ok tok h, step]

theorem exec_non2xx (tok : String) (h : tok ≠ "") (r : HttpResponse)
    (h2 : is2xx r.status = false) :
    make_api_request (some tok) (.resp r)
      = .error ("Google API error " ++ toString r.status ++ ": " ++ r.bodyText) := by
  simp [make_api_request, get_access_token_ok tok h, step, h2, bstep]

theorem exec_bytes (tok : String) (h : tok ≠ "") (r : HttpResponse)
    (h2 : is2xx r.status = true)
    (hct : chStarts r.contentType.data "application/".data = true) :
    make_api_request (some tok) (.resp r) = .ok (.bytesData r.content) := by
  simp [make_api_request, get_access_token_ok tok h, step, h2, hct, bstep]

theorem exec_json (tok : String) (h : tok ≠ "") (r : HttpResponse) (v : JVal)
    (h2 : is2xx r.status = true)
    (hct : chStarts r.contentType.data "application/".data = false)
    (hj : r.jsonBody = .ok v) :
    make_api_request (some tok) (.resp r) = .ok (.jsonData v) := by
  simp [make_api_request, get_access_token_ok tok h, step, h2, hct, hj, bstep]

theorem exec_badjson (tok : String) (h : tok ≠ "") (r : HttpResponse) (d : String)
    (h2 : is2xx r.status = true)
    (hct : chStarts r.contentType.data "application/".data = false)
    (hj : r.jsonBody = .error d) :
    make_api_request (some tok) (.resp r) = .error ("Request failed: " ++ d) := by
  simp [make_api_request, get_access_token_ok tok h, step, h2, hct, hj, bstep]

theorem list_documents_shape (env : Option String) (net : NetOracle) (N : Int) :
    (∃ e, list_documents env net N = ⟨listErr e, 1⟩)
    ∨ (∃ files n, list_documents env net N = ⟨listOk files n, 1⟩) := by
  unfold list_documents
  cases hx : make_api_request env (net (list_documents_request N)) with
  | error e => exact Or.inl ⟨e, by simp [step]⟩
  | ok result =>
    simp only [step]
    cases hy : dictGetD result "files" (.arr []) with
    | error e => exact Or.inl ⟨e, by simp [step]⟩
    | ok files =>
      simp only [step]
      cases hz : pyLen files with
      | error e => exact Or.inl ⟨e, by simp [step]⟩
      | ok n => exact Or.inr ⟨files, n, by simp [step]⟩

theorem get_document_shape (env : Option String) (net : NetOracle) (document_id : String) :
    (∃ e, get_document env net document_id = ⟨getDocErr document_id e, 1⟩)
    ∨ (∃ d t b, get_document env net document_id = ⟨getDocOk d t b, 1⟩) := by
  unfold get_document
  cases h1 : make_api_request env (net (get_document_request document_id)) with
  | error e => exact Or.inl ⟨e, by simp [step]⟩
  | ok result =>
    simp only [step]
    cases h2 : dictGetN result "documentId" with
    | error e => exact Or.inl ⟨e, by simp [step]⟩
    | ok d =>
      simp only [step]
      cases h3 : dictGetN result "title" with
      | error e => exact Or.inl ⟨e, by simp [step]⟩
      | ok t =>
        simp only [step]
        cases h4 : dictGetN result "body" with
        | error e => exact Or.inl ⟨e, by simp [step]⟩
        | ok b => exact Or.inr ⟨d, t, b, by simp [step]⟩

theorem create_document_shape (env : Option String) (net : NetOracle) (title : String) :
    (∃ e c, create_document env net title = ⟨createErr title e, c⟩)
    ∨ (∃ d t l, create_document env net title = ⟨createOk d t l title, 2⟩) := by
  unfold create_document
  cases h1 : make_api_request env (net (create_document_request title)) with
  | error e => exact Or.inl ⟨e, 1, by simp [step]⟩
  | ok result =>
    simp only [step]
    cases h2 : dictGetN result "documentId" with
    | error e => exact Or.inl ⟨e, 1, by simp [step]⟩
    | ok doc_id =>
      simp only [step]
      cases h3 : make_api_request env (net (create_meta_request doc_id)) with
      | error e => exact Or.inl ⟨e, 2, by simp [step]⟩
      | ok drive_info =>
        simp only [step]
        cases h4 : dictGetN result "title" with
        | error e => exact Or.inl ⟨e, 2, by simp [step]⟩
        | ok rtitle =>
          simp only [step]
          cases h5 : dictGetN drive_info "webViewLink" with
          | error e => exact Or.inl ⟨e, 2, by simp [step]⟩
          | ok link => exact Or.inr ⟨doc_id, rtitle, link, by simp [step]⟩

theorem insert_text_shape (env : Option String) (net : NetOracle)
    (document_id text : String) (index : Int) :
    (∃ e, insert_text env net document_id text index = ⟨insertTextErr document_id e, 1⟩)
    ∨ (∃ replies, insert_text env net document_id text index
        = ⟨insertTextOk document_id index replies, 1⟩) := by
  unfold insert_text
  cases h1 : make_api_request env (net (insert_text_request document_id text index)) with
  | error e => exact Or.inl ⟨e, by simp [step]⟩
  | ok result =>
    simp only [step]
    cases h2 : dictGetD result "replies" (.arr []) with
    | error e => exact Or.inl ⟨e, by simp [step]⟩
    | ok replies => exact Or.inr ⟨replies, by simp [step]⟩

theorem replace_text_shape (env : Option String) (net : NetOracle)
    (document_id old_text new_text : String) :
    (∃ e, replace_text env net document_id old_text new_text
        = ⟨replaceErr document_id e, 1⟩)
    ∨ (∃ occ, replace_text env net document_id old_text new_text
        = ⟨replaceOk document_id old_text new_text occ, 1⟩) := by
  unfold replace_text
  cases h1 : make_api_request env (net (replace_text_request document_id old_text new_text)) with
  | error e => exact Or.inl ⟨e, by simp [step]⟩
  | ok result =>
    simp only [step]
    cases h2 : dictGetD result "replies" (.arr []) with
    | error e => exact Or.inl ⟨e, by simp [step]⟩
    | ok replies =>
      simp only [step]
      cases h3 : replace_occurrences replies with
      | error e => exact Or.inl ⟨e, by simp [step]⟩
      | ok occ => exact Or.inr ⟨occ, by simp [step]⟩

theorem format_text_shape (env : Option String) (net : NetOracle) (document_id : String)
    (start_index end_index : Int) (bold italic underline : Option Bool) :
    format_text env net document_id start_index end_index bold italic underline
      = ⟨formatLocalErr document_id, 0⟩
    ∨ (∃ e, format_text env net document_id start_index end_index bold italic underline
        = ⟨formatErr document_id e, 1⟩)
    ∨ format_text env net document_id start_index end_index bold italic underline
        = ⟨formatOk document_id start_index end_index
            (styleEntries bold italic underline), 1⟩ := by
  unfold format_text
  cases hs : (styleEntries bold italic underline).isEmpty with
  | true => exact Or.inl (by simp [bstep])
  | false =>
    simp only [bstep]
    cases h1 : make_api_request env (net (format_text_request document_id
        start_index end_index (styleEntries bold italic underline))) with
    | error e => exact Or.inr (Or.inl ⟨e, by simp [step]⟩)
    | ok result => exact Or.inr (Or.inr (by simp [step]))

theorem insert_image_shape (env : Option String) (net : NetOracle)
    (document_id image_url : String) (index : Int) :
    (∃ e, insert_image env net document_id image_url index
        = ⟨insertImageErr document_id e, 1⟩)
    ∨ insert_image env net document_id image_url index
        = ⟨insertImageOk document_id image_url index, 1⟩ := by
  unfold insert_image
  cases h1 : make_api_request env (net (insert_image_request document_id image_url index)) with
  | error e => exact Or.inl ⟨e, by simp [step]⟩
  | ok result => exact Or.inr (by simp [step])

theorem export_document_shape (env : Option String) (net : NetOracle)
    (document_id export_format : String) :
    export_document env net document_id export_format = ⟨exportLocalErr export_format, 0⟩
    ∨ (∃ e, export_document env net document_id export_format
        = ⟨exportErr document_id e, 1⟩)
    ∨ (∃ n, export_document env net document_id export_format
        = ⟨exportOk document_id export_format n, 1⟩) := by
  unfold export_document
  cases hm : lookupStr mime_types export_format with
  | none => exact Or.inl (by simp [optStep])
  | some mime =>
    simp only [optStep]
    cases h1 : make_api_request env (net (export_request document_id mime)) with
    | error e => exact Or.inr (Or.inl ⟨e, by simp [step]⟩)
    | ok content => exact Or.inr (Or.inr ⟨lenOrZero content, by simp [step]⟩)

theorem delete_document_shape (env : Option String) (net : NetOracle)
    (document_id : String) :
    (∃ e, delete_document env net document_id = ⟨deleteErr document_id e, 1⟩)
    ∨ delete_document env net document_id = ⟨deleteOk document_id, 1⟩ := by
  unfold delete_document
  cases h1 : make_api_request env (net (delete_document_request document_id)) with
  | error e => exact Or.inl ⟨e, by simp [step]⟩
  | ok result => exact Or.inr (by simp [step])

/-- C1: for every tool invocation of each of the nine adapters and every
outcome of the executor (success, remote-API failure, transport failure,
local validation failure), the returned value is a structured mapping that
contains a `message` field and contains either a primary success field
(`files` for list_documents, `documentId` for the others) or an `error`
field but never both. The adapters are total Lean functions over all
environments, network oracles and arguments, so no exception or fault
propagates to the caller. -/
theorem tool_envelope_invariant (env : Option String) (net : NetOracle) :
    (∀ N, envOk (list_documents env net N).envelope "files" = true)
    ∧ (∀ document_id, envOk (get_document env net document_id).envelope "documentId" = true)
    ∧ (∀ title, envOk (create_document env net title).envelope "documentId" = true)
    ∧ (∀ document_id text index,
        envOk (insert_text env net document_id text index).envelope "documentId" = true)
    ∧ (∀ document_id old_text new_text,
        envOk (replace_text env net document_id old_text new_text).envelope "documentId" = true)
    ∧ (∀ document_id start_index end_index bold italic underline,
        envOk (format_text env net document_id start_index end_index
          bold italic underline).envelope "documentId" = true)
    ∧ (∀ document_id image_url index,
        envOk (insert_image env net document_id image_url index).envelope "documentId" = true)
    ∧ (∀ document_id export_format,
        envOk (export_document env net document_id export_format).envelope "documentId" = true)
    ∧ (∀ document_id, envOk (delete_document env net document_id).envelope "documentId" = true) := by
  refine ⟨?_, ?_, ?_, ?_, ?_, ?_, ?_, ?_, ?_⟩
  · intro N
    rcases list_documents_shape env net N with ⟨e, h⟩ | ⟨files, n, h⟩ <;> rw [h] <;> rfl
  · intro document_id
    rcases get_document_shape env net document_id with ⟨e, h⟩ | ⟨d, t, b, h⟩ <;>
      rw [h] <;> rfl
  · intro title
    rcases create_document_shape env net title with ⟨e, c, h⟩ | ⟨d, t, l, h⟩ <;>
      rw [h] <;> rfl
  · intro document_id text index
    rcases insert_text_shape env net document_id text index with ⟨e, h⟩ | ⟨replies, h⟩ <;>
      rw [h] <;> rfl
  · intro document_id old_text new_text
    rcases replace_text_shape env net document_id old_text new_text with ⟨e, h⟩ | ⟨occ, h⟩ <;>
      rw [h] <;> rfl
  · intro document_id start_index end_index bold italic underline
    rcases format_text_shape env net document_id start_index end_index bold italic underline
      with h | ⟨e, h⟩ | h <;> rw [h] <;> rfl
  · intro document_id image_url index
    rcases insert_image_shape env net document_id image_url index with ⟨e, h⟩ | h <;>
      rw [h] <;> rfl
  · intro document_id export_format
    rcases export_document_shape env net document_id export_format
      with h | ⟨e, h⟩ | ⟨n, h⟩ <;> rw [h] <;> rfl
  · intro document_id
    rcases delete_document_shape env net document_id with ⟨e, h⟩ | h <;> rw [h] <;> rfl

/-- C2: for every tool, whenever the returned envelope is the error variant
(an `error` field is present), the envelope is exactly the tool's error
shape: the error text under `error`, the contextual identifiers of the
operation (`document_id` for get/insert/replace/format/insert_image/delete
and for export's remote failures, `title` for create, the supported-format
list for export's local unsupported-format failure, and no further
identifier for list_documents, whose only argument is a count), and a
human-readable `message`. In particular this pins down the
`list_documents` error envelope and `export_document`'s local
unsupported-format envelope. -/
theorem error_envelope_contents (env : Option String) (net : NetOracle) :
    (∀ N, hasField (list_documents env net N).envelope "error" = true →
      ∃ e, (list_documents env net N).envelope = listErr e)
    ∧ (∀ document_id, hasField (get_document env net document_id).envelope "error" = true →
      ∃ e, (get_document env net document_id).envelope = getDocErr document_id e)
    ∧ (∀ title, hasField (create_document env net title).envelope "error" = true →
      ∃ e, (create_document env net title).envelope = createErr title e)
    ∧ (∀ document_id text index,
        hasField (insert_text env net document_id text index).envelope "error" = true →
      ∃ e, (insert_text env net document_id text index).envelope = insertTextErr document_id e)
    ∧ (∀ document_id old_text new_text,
        hasField (replace_text env net document_id old_text new_text).envelope "error" = true →
      ∃ e, (replace_text env net document_id old_text new_text).envelope
        = replaceErr document_id e)
    ∧ (∀ document_id start_index end_index bold italic underline,
        hasField (format_text env net document_id start_index end_index
          bold italic underline).envelope "error" = true →
      (∃ e, (format_text env net document_id start_index end_index
          bold italic underline).envelope = formatErr document_id e)
      ∨ (format_text env net document_id start_index end_index
          bold italic underline).envelope = formatLocalErr document_id)
    ∧ (∀ document_id image_url index,
        hasField (insert_image env net document_id image_url index).envelope "error" = true →
      ∃ e, (insert_image env net document_id image_url index).envelope
        = insertImageErr document_id e)
    ∧ (∀ document_id export_format,
        hasField (export_document env net document_id export_format).envelope "error" = true →
      (∃ e, (export_document env net document_id export_format).envelope
        = exportErr document_id e)
      ∨ (export_document env net document_id export_format).envelope
        = exportLocalErr export_format)
    ∧ (∀ document_id, hasField (delete_document env net document_id).envelope "error" = true →
      ∃ e, (delete_document env net document_id).envelope = deleteErr document_id e) := by
  refine ⟨?_, ?_, ?_, ?_, ?_, ?_, ?_, ?_, ?_⟩
  · intro N h
    rcases list_documents_shape env net N with ⟨e, hs⟩ | ⟨files, n, hs⟩
    · exact ⟨e, by rw [hs]⟩
    · rw [hs] at h; exact Bool.noConfusion h
  · intro document_id h
    rcases get_document_shape env net document_id with ⟨e, hs⟩ | ⟨d, t, b, hs⟩
    · exact ⟨e, by rw [hs]⟩
    · rw [hs] at h; exact Bool.noConfusion h
  · intro title h
    rcases create_document_shape env net title with ⟨e, c, hs⟩ | ⟨d, t, l, hs⟩
    · exact ⟨e, by rw [hs]⟩
    · rw [hs] at h; exact Bool.noConfusion h
  · intro document_id text index h
    rcases insert_text_shape env net document_id text index with ⟨e, hs⟩ | ⟨replies, hs⟩
    · exact ⟨e, by rw [hs]⟩
    · rw [hs] at h; exact Bool.noConfusion h
  · intro document_id old_text new_text h
    rcases replace_text_shape env net document_id old_text new_text with ⟨e, hs⟩ | ⟨occ, hs⟩
    · exact ⟨e, by rw [hs]⟩
    · rw [hs] at h; exact Bool.noConfusion h
  · intro document_id start_index end_index bold italic underline h
    rcases format_text_shape env net document_id start_index end_index bold italic underline
      with hs | ⟨e, hs⟩ | hs
    · exact Or.inr (by rw [hs])
    · exact Or.inl ⟨e, by rw [hs]⟩
    · rw [hs] at h; exact Bool.noConfusion h
  · intro document_id image_url index h
    rcases insert_image_shape env net document_id image_url index with ⟨e, hs⟩ | hs
    · exact ⟨e, by rw [hs]⟩
    · rw [hs] at h; exact Bool.noConfusion h
  · intro document_id export_format h
    rcases export_document_shape env net document_id export_format
      with hs | ⟨e, hs⟩ | ⟨n, hs⟩
    · exact Or.inr (by rw [hs])
    · exact Or.inl ⟨e, by rw [hs]⟩
    · rw [hs] at h; exact Bool.noConfusion h
  · intro document_id h
    rcases delete_document_shape env net document_id with ⟨e, hs⟩ | hs
    · exact ⟨e, by rw [hs]⟩
    · rw [hs] at h; exact Bool.noConfusion h

/-- C2 witness: concrete error envelopes — a transport fault on
`get_document`, and `export_document`'s local unsupported-format error. -/
theorem error_envelope_contents_witness :
    (∃ e, (get_document (some "tok") netFault "doc-1").envelope = getDocErr "doc-1" e)
    ∧ ((∃ e, (export_document (some "tok") netFault "doc-1" "bogus").envelope
          = exportErr "doc-1" e)
       ∨ (export_document (some "tok") netFault "doc-1" "bogus").envelope
          = exportLocalErr "bogus") :=
  ⟨(error_envelope_contents (some "tok") netFault).2.1 "doc-1" rfl,
   (error_envelope_contents (some "tok") netFault).2.2.2.2.2.2.2.1 "doc-1" "bogus" rfl⟩

/-- C3 counterexample: the claim "for every N ≤ 0 the page size sent to the
remote API is never negative" is false: `list_documents(max_results = -1)`
puts page size `min(-1, 1000) = -1`, which is negative, into the request's
query parameters. -/
theorem list_documents_negative_pageSize_cex :
    (-1 : Int) ≤ 0
    ∧ list_documents_pageSize (-1) < 0
    ∧ assocLookup (list_documents_params (-1)) "pageSize" = some (JVal.num (-1)) := by
  refine ⟨by decide, by decide, rfl⟩

/-- C3 amended: for every N > 1000, `list_documents(max_results = N)` builds
the same request (page size 1000) as `list_documents(max_results = 1000)`
and hence behaves identically; for every N ≤ 0 the page size sent to the
remote API equals N itself (the low side is not clamped, so it is negative
exactly when N is). -/
theorem list_documents_clamp_amended :
    (∀ N : Int, 1000 < N → list_documents_request N = list_documents_request 1000)
    ∧ (∀ (env : Option String) (net : NetOracle) (N : Int), 1000 < N →
        list_documents env net N = list_documents env net 1000)
    ∧ (∀ N : Int, N ≤ 0 → list_documents_pageSize N = N) := by
  have hreq : ∀ N : Int, 1000 < N → list_documents_request N = list_documents_request 1000 := by
    intro N h
    unfold list_documents_request list_documents_params list_documents_pageSize
    rw [min_eq_right (le_of_lt h), min_self]
  refine ⟨hreq, ?_, ?_⟩
  · intro env net N h
    unfold list_documents
    rw [hreq N h]
  · intro N h
    unfold list_documents_pageSize
    exact min_eq_left (le_trans h (by decide))

/-- C3 witness: the amended theorem applied at N = 2000 and N = -1. -/
theorem list_documents_clamp_amended_witness :
    list_documents (some "tok") netFault 2000 = list_documents (some "tok") netFault 1000
    ∧ list_documents_pageSize (-1) = -1 :=
  ⟨list_documents_clamp_amended.2.1 (some "tok") netFault 2000 (by decide),
   list_documents_clamp_amended.2.2 (-1) (by decide)⟩

/-- C4: local validation errors short-circuit before any executor call:
`format_text` with bold, italic and underline all unset returns its local
error envelope with zero executor calls, and `export_document` with a
format outside the fixed table returns its local error envelope — whose
`supported_formats` list is exactly the 7 formats pdf, docx, odt, rtf,
txt, html, epub — with zero executor calls ("bogus" being such a format). -/
theorem local_validation_zero_calls :
    (∀ (env : Option String) (net : NetOracle) (document_id : String)
        (start_index end_index : Int),
      format_text env net document_id start_index end_index none none none
        = ⟨formatLocalErr document_id, 0⟩)
    ∧ (∀ (env : Option String) (net : NetOracle) (document_id export_format : String),
        lookupStr mime_types export_format = none →
      export_document env net document_id export_format = ⟨exportLocalErr export_format, 0⟩)
    ∧ lookupStr mime_types "bogus" = none
    ∧ mime_types.map Prod.fst = ["pdf", "docx", "odt", "rtf", "txt", "html", "epub"]
    ∧ lookupField (exportLocalErr "bogus") "supported_formats"
        = some (.arr [.str "pdf", .str "docx", .str "odt", .str "rtf",
                      .str "txt", .str "html", .str "epub"]) := by
  refine ⟨?_, ?_, rfl, rfl, rfl⟩
  · intro env net document_id start_index end_index
    rfl
  · intro env net document_id export_format h
    unfold export_document
    rw [h]
    rfl

/-- C4 witness: the theorem applied at concrete arguments, with
`export_format = "bogus"`. -/
theorem local_validation_zero_calls_witness :
    format_text (some "tok") netFault "doc-1" 1 2 none none none
      = ⟨formatLocalErr "doc-1", 0⟩
    ∧ export_document (some "tok") netFault "doc-1" "bogus"
      = ⟨exportLocalErr "bogus", 0⟩ :=
  ⟨local_validation_zero_calls.1 (some "tok") netFault "doc-1" 1 2,
   local_validation_zero_calls.2.1 (some "tok") netFault "doc-1" "bogus" rfl⟩

/-- C5 counterexample: the claim "content_length is 0 exactly when that
payload is not byte data" is false: when the export call succeeds with an
empty byte payload, the payload is byte data yet `content_length` is 0. -/
theorem export_content_length_cex :
    make_api_request (some "tok") (netEmptyPdf (export_request "doc-1" "application/pdf"))
      = Except.ok (ApiData.bytesData [])
    ∧ lookupField (export_document (some "tok") netEmptyPdf "doc-1" "pdf").envelope
        "content_length" = some (JVal.num 0)
    ∧ ¬ (lookupField (export_document (some "tok") netEmptyPdf "doc-1" "pdf").envelope
          "content_length" = some (JVal.num 0)
        ↔ (ApiData.bytesData ([] : List Nat)).isBytes = false) :=
  ⟨rfl, rfl, fun h => Bool.noConfusion (h.mp rfl)⟩

/-- C5 amended: for every document_id and every export_format in the
supported table, when the executor call succeeds the success envelope's
`content_length` equals the exact byte length of the payload when that
payload is byte data, and is 0 when the payload is not byte data; the
envelope equals `exportOk`, which contains only the computed length and
never the payload bytes themselves. -/
theorem export_content_length_amended (env : Option String) (net : NetOracle)
    (document_id export_format mime : String)
    (hm : lookupStr mime_types export_format = some mime) (d : ApiData)
    (hexec : make_api_request env (net (export_request document_id mime)) = .ok d) :
    export_document env net document_id export_format
      = ⟨exportOk document_id export_format (lenOrZero d), 1⟩
    ∧ (∀ b, d = .bytesData b → lenOrZero d = b.length)
    ∧ (∀ v, d = .jsonData v → lenOrZero d = 0) := by
  refine ⟨?_, ?_, ?_⟩
  · unfold export_document
    rw [hm]
    simp only [optStep]
    rw [hexec]
    simp [step]
  · intro b hb
    subst hb
    rfl
  · intro v hv
    subst hv
    rfl

/-- C5 witness: a 4-byte export payload yields `content_length = 4`. -/
theorem export_content_length_amended_witness :
    export_document (some "tok") netPdf4 "doc-1" "pdf" = ⟨exportOk "doc-1" "pdf" 4, 1⟩
    ∧ lenOrZero (ApiData.bytesData [37, 80, 68, 70]) = [37, 80, 68, 70].length :=
  have h := export_content_length_amended (some "tok") netPdf4 "doc-1" "pdf"
    "application/pdf" rfl (ApiData.bytesData [37, 80, 68, 70]) rfl
  ⟨h.1, h.2.1 [37, 80, 68, 70] rfl⟩

theorem replace_occurrences_noRat (hfs : List (String × JVal)) (rest : List JVal)
    (h : assocLookup hfs "replaceAllText" = none) :
    replace_occurrences (.arr (.obj hfs :: rest)) = .ok (.num 0) := by
  simp [replace_occurrences, pyTruthy, pyIndexZero, pyContains, step, bstep, h]

theorem replace_occurrences_noOcc (hfs rfs : List (String × JVal)) (rest : List JVal)
    (hrat : assocLookup hfs "replaceAllText" = some (.obj rfs))
    (h : assocLookup rfs "occurrencesChanged" = none) :
    replace_occurrences (.arr (.obj hfs :: rest)) = .ok (.num 0) := by
  simp [replace_occurrences, pyTruthy, pyIndexZero, pyContains, pySubscript, pyDictGetD,
        step, bstep, optStep, hrat, h]

theorem replace_occurrences_value (hfs rfs : List (String × JVal)) (rest : List JVal)
    (w : JVal) (hrat : assocLookup hfs "replaceAllText" = some (.obj rfs))
    (h : assocLookup rfs "occurrencesChanged" = some w) :
    replace_occurrences (.arr (.obj hfs :: rest)) = .ok w := by
  simp [replace_occurrences, pyTruthy, pyIndexZero, pyContains, pySubscript, pyDictGetD,
        step, bstep, optStep, hrat, h]

theorem replace_text_of_exec (env : Option String) (net : NetOracle)
    (document_id old_text new_text : String) (fs : List (String × JVal)) (occ : JVal)
    (hexec : make_api_request env (net (replace_text_request document_id old_text new_text))
      = .ok (.jsonData (.obj fs)))
    (hocc : replace_occurrences ((assocLookup fs "replies").getD (.arr [])) = .ok occ) :
    replace_text env net document_id old_text new_text
      = ⟨replaceOk document_id old_text new_text occ, 1⟩ := by
  unfold replace_text
  rw [hexec]
  simp only [step, dictGetD]
  rw [hocc]

/-- C6: for every remote reply to replace_text's batch update (the executor
returning a JSON object `fs`), if the replies list is absent or empty, or
its first reply lacks a `replaceAllText` key, or that key's object lacks
`occurrencesChanged`, the success envelope has `occurrences_changed = 0`
and no exception is raised; otherwise `occurrences_changed` equals the
`occurrencesChanged` value of the first reply. -/
theorem replace_text_defensive_occurrences (env : Option String) (net : NetOracle)
    (document_id old_text new_text : String) (fs : List (String × JVal))
    (hexec : make_api_request env (net (replace_text_request document_id old_text new_text))
      = Except.ok (ApiData.jsonData (JVal.obj fs))) :
    ((assocLookup fs "replies" = none ∨ assocLookup fs "replies" = some (JVal.arr [])) →
      replace_text env net document_id old_text new_text
        = ⟨replaceOk document_id old_text new_text (JVal.num 0), 1⟩)
    ∧ (∀ hfs rest, assocLookup fs "replies" = some (JVal.arr (JVal.obj hfs :: rest)) →
        assocLookup hfs "replaceAllText" = none →
        replace_text env net document_id old_text new_text
          = ⟨replaceOk document_id old_text new_text (JVal.num 0), 1⟩)
    ∧ (∀ hfs rest rfs, assocLookup fs "replies" = some (JVal.arr (JVal.obj hfs :: rest)) →
        assocLookup hfs "replaceAllText" = some (JVal.obj rfs) →
        assocLookup rfs "occurrencesChanged" = none →
        replace_text env net document_id old_text new_text
          = ⟨replaceOk document_id old_text new_text (JVal.num 0), 1⟩)
    ∧ (∀ hfs rest rfs w, assocLookup fs "replies" = some (JVal.arr (JVal.obj hfs :: rest)) →
        assocLookup hfs "replaceAllText" = some (JVal.obj rfs) →
        assocLookup rfs "occurrencesChanged" = some w →
        replace_text env net document_id old_text new_text
          = ⟨replaceOk document_id old_text new_text w, 1⟩) := by
  refine ⟨?_, ?_, ?_, ?_⟩
  · rintro (h | h) <;>
      · apply replace_text_of_exec env net document_id old_text new_text fs _ hexec
        rw [h]
        rfl
  · intro hfs rest h hn
    apply replace_text_of_exec env net document_id old_text new_text fs _ hexec
    rw [h]
    exact replace_occurrences_noRat hfs rest hn
  · intro hfs rest rfs h hrat hn
    apply replace_text_of_exec env net document_id old_text new_text fs _ hexec
    rw [h]
    exact replace_occurrences_noOcc hfs rfs rest hrat hn
  · intro hfs rest rfs w h hrat hw
    apply replace_text_of_exec env net document_id old_text new_text fs _ hexec
    rw [h]
    exact replace_occurrences_value hfs rfs rest w hrat hw

/-- C6 witness: a remote reply with no `replies` key yields
`occurrences_changed = 0`. -/
theorem replace_text_defensive_occurrences_witness :
    replace_text (some "tok") netEmptyObj "doc-1" "old" "new"
      = ⟨replaceOk "doc-1" "old" "new" (JVal.num 0), 1⟩ :=
  (replace_text_defensive_occurrences (some "tok") netEmptyObj "doc-1" "old" "new" [] rfl).1
    (Or.inl rfl)

/-- C7: when the remote service answers get_document with HTTP status 404,
the returned mapping has an `error` field whose text contains "404", a
`document_id` field equal to the requested id, and no `title` or `body`
fields. -/
theorem get_document_404_envelope (net : NetOracle) (tok document_id : String)
    (htok : tok ≠ "") (r : HttpResponse)
    (hnet : net (get_document_request document_id) = Transport.resp r)
    (hstatus : r.status = 404) :
    lookupField (get_document (some tok) net document_id).envelope "error"
      = some (.str ("Google API error 404: " ++ r.bodyText))
    ∧ containsSub ("Google API error 404: " ++ r.bodyText) "404"
    ∧ lookupField (get_document (some tok) net document_id).envelope "document_id"
      = some (.str document_id)
    ∧ hasField (get_document (some tok) net document_id).envelope "title" = false
    ∧ hasField (get_document (some tok) net document_id).envelope "body" = false := by
  have hx : make_api_request (some tok) (net (get_document_request document_id))
      = .error ("Google API error 404: " ++ r.bodyText) := by
    rw [hnet, exec_non2xx tok htok r (by rw [hstatus]; rfl), hstatus]
    rfl
  have henv : get_document (some tok) net document_id
      = ⟨getDocErr document_id ("Google API error 404: " ++ r.bodyText), 1⟩ := by
    unfold get_document
    rw [hx]
    rfl
  rw [henv]
  exact ⟨rfl, ⟨"Google API error ", ": " ++ r.bodyText, rfl⟩, rfl, rfl, rfl⟩

/-- C7 witness: a 404 reply for `get_document "missing-id"`. -/
theorem get_document_404_envelope_witness :
    lookupField (get_document (some "tok") net404 "missing-id").envelope "error"
      = some (.str ("Google API error 404: " ++ resp404.bodyText))
    ∧ containsSub ("Google API error 404: " ++ resp404.bodyText) "404"
    ∧ lookupField (get_document (some "tok") net404 "missing-id").envelope "document_id"
      = some (.str "missing-id")
    ∧ hasField (get_document (some "tok") net404 "missing-id").envelope "title" = false
    ∧ hasField (get_document (some "tok") net404 "missing-id").envelope "body" = false :=
  get_document_404_envelope net404 "tok" "missing-id" (by decide) resp404 rfl rfl

/-- C8: when create_document's creation call succeeds (returning a JSON
object) but its second, metadata-fetch call fails, the tool returns the
error-variant envelope (error text, requested title, failure message) after
2 executor calls, and the created document's id is not among its fields
(no `documentId` field), even though the document was created server-side
and not cleaned up. -/
theorem create_document_partial_failure (env : Option String) (net : NetOracle)
    (title e : String) (fs : List (String × JVal))
    (h1 : make_api_request env (net (create_document_request title))
      = Except.ok (ApiData.jsonData (JVal.obj fs)))
    (h2 : make_api_request env (net (create_meta_request
        ((assocLookup fs "documentId").getD JVal.null))) = Except.error e) :
    create_document env net title = ⟨createErr title e, 2⟩
    ∧ hasField (createErr title e) "documentId" = false := by
  refine ⟨?_, rfl⟩
  unfold create_document
  rw [h1]
  simp only [step, dictGetN, dictGetD]
  rw [h2]

/-- C8 witness: creation succeeds with id "doc-123", the link fetch meets a
transport fault; the result is the error envelope with no `documentId`. -/
theorem create_document_partial_failure_witness :
    create_document (some "tok") netCreateThenFault "Report"
      = ⟨createErr "Report" ("Request failed: link fetch failed"), 2⟩
    ∧ hasField (createErr "Report" ("Request failed: link fetch failed")) "documentId"
      = false :=
  create_document_partial_failure (some "tok") netCreateThenFault "Report"
    ("Request failed: link fetch failed")
    [("documentId", .str "doc-123"), ("title", .str "Report")] rfl rfl

/-- C9: the executor `make_api_request`, for every transport outcome of the
issued call (given a usable credential): on a non-2xx status it fails with
the Remote API error carrying the numeric status code and the raw response
body text; on a 2xx response whose content-type begins with `application/`
it returns the raw byte payload uninterpreted; on any other 2xx response it
returns the body decoded as structured JSON data (and a decode failure, a
malformed response, is wrapped as Request-failed); and any transport-level
fault is converted to the generic Request-failed error wrapping the
underlying cause's description. -/
theorem make_api_request_spec (tok : String) (htok : tok ≠ "") :
    (∀ r : HttpResponse, is2xx r.status = false →
      make_api_request (some tok) (.resp r)
        = .error ("Google API error " ++ toString r.status ++ ": " ++ r.bodyText))
    ∧ (∀ r : HttpResponse, is2xx r.status = true →
        chStarts r.contentType.data "application/".data = true →
      make_api_request (some tok) (.resp r) = .ok (.bytesData r.content))
    ∧ (∀ (r : HttpResponse) (v : JVal), is2xx r.status = true →
        chStarts r.contentType.data "application/".data = false →
        r.jsonBody = .ok v →
      make_api_request (some tok) (.resp r) = .ok (.jsonData v))
    ∧ (∀ (r : HttpResponse) (d : String), is2xx r.status = true →
        chStarts r.contentType.data "application/".data = false →
        r.jsonBody = .error d →
      make_api_request (some tok) (.resp r) = .error ("Request failed: " ++ d))
    ∧ (∀ d : String, make_api_request (some tok) (.fault d)
        = .error ("Request failed: " ++ d)) :=
  ⟨fun r h2 => exec_non2xx tok htok r h2,
   fun r h2 hct => exec_bytes tok htok r h2 hct,
   fun r v h2 hct hj => exec_json tok htok r v h2 hct hj,
   fun r d h2 hct hj => exec_badjson tok htok r d h2 hct hj,
   fun d => exec_fault tok d htok⟩

/-- C9 witness: the four response clauses and the fault clause at concrete
transport outcomes. -/
theorem make_api_request_spec_witness :
    make_api_request (some "tok") (.resp resp404)
      = .error ("Google API error " ++ toString resp404.status ++ ": " ++ resp404.bodyText)
    ∧ make_api_request (some "tok") (.resp respPdf4)
      = .ok (.bytesData respPdf4.content)
    ∧ make_api_request (some "tok") (.resp respEmptyJson) = .ok (.jsonData (.obj []))
    ∧ make_api_request (some "tok") (.fault "timed out")
      = .error ("Request failed: " ++ "timed out") :=
  ⟨(make_api_request_spec "tok" (by decide)).1 resp404 rfl,
   (make_api_request_spec "tok" (by decide)).2.1 respPdf4 rfl rfl,
   (make_api_request_spec "tok" (by decide)).2.2.1 respEmptyJson (.obj []) rfl rfl rfl,
   (make_api_request_spec "tok" (by decide)).2.2.2.2 "timed out"⟩

/-- C10: the credential lookup treats an empty-string environment value
exactly like an absent one — `get_access_token` fails with the
missing-token configuration error when the variable is unset or set to the
empty string, and returns the token string otherwise. -/
theorem get_access_token_empty_missing :
    get_access_token none = .error missingTokenMsg
    ∧ get_access_token (some "") = .error missingTokenMsg
    ∧ ∀ t : String, t ≠ "" → get_access_token (some t) = .ok t :=
  ⟨rfl, rfl, fun t ht => get_access_token_ok t ht⟩

/-- C10 witness: a non-empty token is returned as-is. -/
theorem get_access_token_empty_missing_witness :
    get_access_token (some "abc") = .ok "abc" :=
  get_access_token_empty_missing.2.2 "abc" (by decide)

end GDocs
